import Mathlib

/-!
Shallow embedding of the revaux-stripe-backend relay (Express + Stripe).
The primary variant embedded is src/unnamed/part_001, which contains the
webhook handler with direct-DB-write and file fallback, the /confirm-order
upsert, /create-payment and /verify-payment.  src/server.js contributes
the PHP-to-USD converted-currency mode of /create-payment.

JavaScript-isms are modelled explicitly:
  - a possibly-absent value is an Option (none = undefined/null);
  - the nullish-coalescing operator a ?? b keeps "" but replaces none;
  - the or operator a || b also replaces the empty string and 0 (falsy);
  - Math.round q is the integer floor of q + 1/2 (round half toward plus
    infinity), matching JS on every rational input.
-/

namespace Revaux

/-- JS `a || null` on a string-valued optional chain: `""` is falsy. -/
def jsOrNull (o : Option String) : Option String :=
  match o with
  | some s => if s = "" then none else some s
  | none => none

/-- JS `a || d` on a string-valued optional chain with a string default. -/
def jsOrDefault (o : Option String) (d : String) : String :=
  match o with
  | some s => if s = "" then d else s
  | none => d

/-- JS `Math.round` on a rational: floor of q + 1/2. -/
def mathRound (q : ℚ) : ℤ := ⌊q + 1/2⌋

/-- Stripe payment-intent metadata as attached by this system: the three
keys, each possibly absent (`none`) or present with a string value
(which may be `""`). -/
structure Metadata where
  customer_id : Option String
  cart_id : Option String
  shipping_fee : Option String
deriving DecidableEq, Repr

/-- The slice of a Stripe payment-intent object that the three endpoints
read.  `amount` is the processor's integer minor-unit amount (possibly
absent in a malformed object, matching the code's `intent.amount || 0`
guard); `charge_receipt_url` models `charges?.data?.[0]?.receipt_url`
and `charge_card_brand` models
`charges?.data?.[0]?.payment_method_details?.card?.brand`. -/
structure Intent where
  id : String
  amount : Option ℤ
  currency : String
  status : String
  metadata : Option Metadata
  charge_receipt_url : Option String
  charge_card_brand : Option String
deriving DecidableEq, Repr

/-- The canonical normalized record built by the webhook handler
(part_001 lines 85-100): the JSON payload sent downstream. -/
structure OrderConfirmation where
  payment_intent_id : String
  customer_id : Option String
  cart_id : Option String
  shipping_fee : Option String
  amountPHP : ℚ
  receipt_url : Option String
  status : String
deriving DecidableEq, Repr

/-- Payload Normalizer: part_001 lines 85-100.
`intent.metadata?.customer_id ?? null` is `Option.bind`;
`(intent.amount || 0) / 100` divides the minor-unit integer (0 when
absent) by 100; `charges?.data?.[0]?.receipt_url || null` is `jsOrNull`. -/
def normalizePayload (intent : Intent) : OrderConfirmation :=
  { payment_intent_id := intent.id
    customer_id := intent.metadata.bind Metadata.customer_id
    cart_id := intent.metadata.bind Metadata.cart_id
    shipping_fee := intent.metadata.bind Metadata.shipping_fee
    amountPHP := ((intent.amount.getD 0 : ℤ) : ℚ) / 100
    receipt_url := jsOrNull intent.charge_receipt_url
    status := "paid" }

/-- One record of the fallback log file pending_orders.json. -/
structure FallbackLogEntry where
  received_at : String
  payload : OrderConfirmation
deriving DecidableEq, Repr

/-- The fallback log file path (`path.resolve("./pending_orders.json")`). -/
def fallbackFile : String := "./pending_orders.json"

/-- Fallback Persister `saveFallbackOrder` (part_001 lines 22-37): reads
the existing log, treating a missing or corrupt file (`none`) as empty,
appends one entry, rewrites the file, and returns the new contents and
the file path. -/
def saveFallbackOrder (now : String) (payload : OrderConfirmation)
    (existing : Option (List FallbackLogEntry)) :
    List FallbackLogEntry × String :=
  (existing.getD [] ++ [⟨now, payload⟩], fallbackFile)

/-- Environment configuration read by the webhook handler: whether
`DB_HOST && DB_NAME && DB_USER` are all set, and whether `ADMIN_EMAIL`
is set (which makes the fallback branch await `sendAdminEmail`). -/
structure Env where
  dbConfigured : Bool
  adminEmailConfigured : Bool
deriving DecidableEq, Repr

/-- Outcomes of the external side effects the webhook handler performs:
whether the HTTP POST to /confirm-order succeeds, whether the direct DB
upsert succeeds, whether writing the fallback file succeeds, whether
the awaited `sendAdminEmail` call returns without throwing (it returns
harmlessly when SMTP_HOST is unset, lines 42-45, and throws when the
configured transport's sendMail rejects), and the current timestamp. -/
structure World where
  httpOk : Bool
  dbWriteOk : Bool
  fallbackWriteOk : Bool
  adminEmailOk : Bool
  now : String
deriving DecidableEq, Repr

/-- An inbound webhook call: the outcome of
`stripe.webhooks.constructEvent` (signature verification), the event
type string, and the payment-intent object carried by the event. -/
structure WebhookRequest where
  sigValid : Bool
  eventType : String
  intent : Intent
deriving DecidableEq, Repr

/-- The response body of the webhook endpoint. -/
inductive WebhookBody where
  /-- `\x7breceived: true\x7d` -/
  | received : WebhookBody
  /-- `\x7breceived: true, fallback_saved: file\x7d` -/
  | receivedFallback (fallback_saved : String) : WebhookBody
  /-- the 400 text `Webhook Error: ...` -/
  | webhookError : WebhookBody
  /-- the 500 text `Failed to persist order` -/
  | persistFailed : WebhookBody
deriving DecidableEq, Repr

/-- What one handling of a webhook call did: HTTP status, body, the
normalized records produced, which delivery strategies were attempted,
and the fallback-log entries appended. -/
structure WebhookResult where
  status : Nat
  body : WebhookBody
  confirmations : List OrderConfirmation
  httpAttempted : Bool
  dbAttempted : Bool
  fallbackAppended : List FallbackLogEntry
deriving DecidableEq, Repr

/-- POST /webhook handler of part_001 (lines 69-182).
Signature failure → 400, nothing else happens.  On
`payment_intent.succeeded`: normalize, always POST the payload to
/confirm-order (result ignored, lines 102-116), then if the DB env is
configured attempt the direct upsert — on success respond 200
received (lines 119-156); otherwise (DB unconfigured or write failed)
enter the fallback try-block (lines 165-177): save the fallback entry;
if the file write throws, respond 500 with nothing appended; if it
succeeds and ADMIN_EMAIL is set, `sendAdminEmail` is awaited inside
the same try-block (lines 169-171), so its throw also reaches the
catch and yields 500 — with the entry already appended; only when the
save succeeds and the email step does not throw (unset ADMIN_EMAIL, or
the call returning) is the response 200 with fallback_saved.  Any
other event type → 200 received. -/
def handleWebhook (env : Env) (w : World) (req : WebhookRequest) :
    WebhookResult :=
  if req.sigValid = false then
    ⟨400, .webhookError, [], false, false, []⟩
  else if req.eventType = "payment_intent.succeeded" then
    if env.dbConfigured && w.dbWriteOk then
      ⟨200, .received, [normalizePayload req.intent], true, env.dbConfigured, []⟩
    else if w.fallbackWriteOk then
      if env.adminEmailConfigured && !w.adminEmailOk then
        ⟨500, .persistFailed, [normalizePayload req.intent], true,
          env.dbConfigured, [⟨w.now, normalizePayload req.intent⟩]⟩
      else
        ⟨200, .receivedFallback fallbackFile, [normalizePayload req.intent], true,
          env.dbConfigured, [⟨w.now, normalizePayload req.intent⟩]⟩
    else
      ⟨500, .persistFailed, [normalizePayload req.intent], true,
        env.dbConfigured, []⟩
  else
    ⟨200, .received, [], false, false, []⟩

/-- A create-payment request body:
`\x7bamountPHP, customer_id?, cart_id?, shipping_fee?\x7d`. -/
structure CreatePaymentRequest where
  amountPHP : Option ℚ
  customer_id : Option String
  cart_id : Option String
  shipping_fee : Option String
deriving DecidableEq, Repr

/-- The payment intent created by POST /create-payment: minor-unit
integer amount, settlement currency, and the metadata stored on it. -/
structure CreatedIntent where
  amount : ℤ
  currency : String
  metadata : Metadata
deriving DecidableEq, Repr

/-- Outcome of POST /create-payment. -/
inductive CreatePaymentResult where
  /-- 400 `\x7berror: "amountPHP required"\x7d` -/
  | badRequest : CreatePaymentResult
  | created (intent : CreatedIntent) : CreatePaymentResult
deriving DecidableEq, Repr

/-- POST /create-payment handler of part_001 (lines 252-269), PHP mode.
`if (!amountPHP)` rejects a missing or zero amount (JS falsy check);
the minor-unit amount is `Math.round(amountPHP * 100)`; metadata keys
are always present, defaulted to `""` by `?? ""`. -/
def createPayment (req : CreatePaymentRequest) : CreatePaymentResult :=
  match req.amountPHP with
  | none => .badRequest
  | some amt =>
    if amt = 0 then .badRequest
    else .created
      { amount := mathRound (amt * 100)
        currency := "php"
        metadata :=
          { customer_id := some (req.customer_id.getD "")
            cart_id := some (req.cart_id.getD "")
            shipping_fee := some (req.shipping_fee.getD "") } }

/-- JS truthy-ternary `x ? String(x) : ""` on an optional string. -/
def jsTruthyString (o : Option String) : String :=
  match o with
  | some s => if s = "" then "" else s
  | none => ""

/-- POST /create-payment handler of src/server.js (lines 39-95),
converted-currency mode: `convertPHPtoUSD` multiplies by the fetched
rate (line 31), then `Math.round(usd * 100)` (line 46).  Its metadata
holds only customer_id and cart_id, via truthy ternaries. -/
def createPaymentUSD (rate : ℚ) (req : CreatePaymentRequest) :
    CreatePaymentResult :=
  match req.amountPHP with
  | none => .badRequest
  | some amt =>
    if amt = 0 then .badRequest
    else .created
      { amount := mathRound (amt * rate * 100)
        currency := "usd"
        metadata :=
          { customer_id := some (jsTruthyString req.customer_id)
            cart_id := some (jsTruthyString req.cart_id)
            shipping_fee := none } }

/-- The JSON body of a successful POST /verify-payment response
(part_001 lines 279-285). -/
structure VerifyResponse where
  status : String
  amountPHP : ℚ
  currency : String
  receipt_url : Option String
  payment_method : String
deriving DecidableEq, Repr

/-- POST /verify-payment handler of part_001 (lines 272-290), given the
retrieved intent: `(pi.amount || 0) / 100`, receipt via `|| null`,
brand via `|| "unknown"`. -/
def verifyPayment (pi : Intent) : VerifyResponse :=
  { status := pi.status
    amountPHP := ((pi.amount.getD 0 : ℤ) : ℚ) / 100
    currency := pi.currency
    receipt_url := jsOrNull pi.charge_receipt_url
    payment_method := jsOrDefault pi.charge_card_brand "unknown" }

/-- One row of the downstream `orders` table, with the columns named in
the INSERT of part_001 lines 134-141 and 213-221. -/
structure OrderRow where
  customer_id : Option String
  cart_id : Option String
  total : ℚ
  shipping_fee : Option String
  payment_method : String
  payment_status : String
  stripe_payment_intent : Option String
  stripe_receipt_url : Option String
deriving DecidableEq, Repr

/-- The rows of a table holding a given stripe payment-intent id. -/
def rowsFor (db : List OrderRow) (pid : String) : List OrderRow :=
  db.filter (fun r => decide (r.stripe_payment_intent = some pid))

/-- The row the INSERT branch writes: VALUES (?, ?, ?, ?, 'Credit
Card', 'Paid', ?, ?). -/
def newOrderRow (p : OrderConfirmation) : OrderRow :=
  { customer_id := p.customer_id
    cart_id := p.cart_id
    total := p.amountPHP
    shipping_fee := p.shipping_fee
    payment_method := "Credit Card"
    payment_status := "Paid"
    stripe_payment_intent := some p.payment_intent_id
    stripe_receipt_url := p.receipt_url }

/-- The ON DUPLICATE KEY UPDATE branch: only payment_status,
stripe_payment_intent and stripe_receipt_url change. -/
def updateRow (p : OrderConfirmation) (r : OrderRow) : OrderRow :=
  { r with payment_status := "Paid"
           stripe_payment_intent := some p.payment_intent_id
           stripe_receipt_url := p.receipt_url }

/-- Modelled from the spec: the `orders` table schema is external to
this repository (src/ holds only the INSERT ... ON DUPLICATE KEY UPDATE
statement, part_001 lines 213-221); per spec section 4.3 the upsert is
keyed by a unique payment-intent identifier, so the duplicate-key
branch fires exactly when a row with the same stripe_payment_intent
already exists, and updates those rows in place. -/
def upsertOrder (db : List OrderRow) (p : OrderConfirmation) :
    List OrderRow :=
  if db.any (fun r => decide (r.stripe_payment_intent = some p.payment_intent_id)) then
    db.map (fun r =>
      if r.stripe_payment_intent = some p.payment_intent_id then updateRow p r else r)
  else db ++ [newOrderRow p]

/-- A sample verified succeeded-event intent: all metadata present,
minor-unit amount 50000, a receipt url, a card brand. -/
def intentA : Intent :=
  { id := "pi_1"
    amount := some 50000
    currency := "php"
    status := "succeeded"
    metadata := some ⟨some "cust-1", some "cart-9", some "150"⟩
    charge_receipt_url := some "https://r.example/rcpt"
    charge_card_brand := some "visa" }

/-- A sample intent with no metadata object at all. -/
def intentB : Intent :=
  { id := "pi_2"
    amount := some 700
    currency := "php"
    status := "succeeded"
    metadata := none
    charge_receipt_url := none
    charge_card_brand := none }

/-- A valid succeeded-event webhook request carrying intentA. -/
def reqA : WebhookRequest :=
  ⟨true, "payment_intent.succeeded", intentA⟩

end Revaux

namespace Revaux

/-- C2: For every webhook request whose signature verification fails,
the endpoint responds with HTTP 400, no OrderConfirmation is produced,
and no fallback log entry is written. -/
theorem webhook_bad_signature (env : Env) (w : World) (req : WebhookRequest)
    (h : req.sigValid = false) :
    (handleWebhook env w req).status = 400 ∧
    (handleWebhook env w req).confirmations = [] ∧
    (handleWebhook env w req).fallbackAppended = [] := by
  simp [handleWebhook, h]

/-- Witness for C2 at a concrete invalid-signature request. -/
theorem webhook_bad_signature_witness :
    (WebhookRequest.mk false "payment_intent.succeeded" intentA).sigValid = false ∧
    ((handleWebhook ⟨true, false⟩ ⟨true, true, true, true, "t0"⟩
        (WebhookRequest.mk false "payment_intent.succeeded" intentA)).status = 400 ∧
      (handleWebhook ⟨true, false⟩ ⟨true, true, true, true, "t0"⟩
        (WebhookRequest.mk false "payment_intent.succeeded" intentA)).confirmations = [] ∧
      (handleWebhook ⟨true, false⟩ ⟨true, true, true, true, "t0"⟩
        (WebhookRequest.mk false "payment_intent.succeeded" intentA)).fallbackAppended = []) :=
  ⟨rfl, webhook_bad_signature ⟨true, false⟩ ⟨true, true, true, true, "t0"⟩
    (WebhookRequest.mk false "payment_intent.succeeded" intentA) rfl⟩

/-- C4: For every valid positive amount, the created payment intent's
minor-unit integer amount equals round(amount * 100) in the chosen
settlement currency: the source amount directly in PHP mode (part_001),
or the rate-converted amount in converted-currency mode (server.js). -/
theorem create_payment_minor_units (req : CreatePaymentRequest)
    (amt rate : ℚ) (h : req.amountPHP = some amt) (hpos : 0 < amt) :
    (∃ ci, createPayment req = .created ci ∧
      ci.amount = round (amt * 100) ∧ ci.currency = "php") ∧
    (∃ ci, createPaymentUSD rate req = .created ci ∧
      ci.amount = round (amt * rate * 100) ∧ ci.currency = "usd") := by
  have hne : ¬ amt = 0 := ne_of_gt hpos
  refine ⟨⟨⟨mathRound (amt * 100), "php",
      ⟨some (req.customer_id.getD ""), some (req.cart_id.getD ""),
        some (req.shipping_fee.getD "")⟩⟩, ?_, ?_, rfl⟩,
    ⟨⟨mathRound (amt * rate * 100), "usd",
      ⟨some (jsTruthyString req.customer_id), some (jsTruthyString req.cart_id),
        none⟩⟩, ?_, ?_, rfl⟩⟩
  · simp [createPayment, h, hne]
  · simp [mathRound, round_eq]
  · simp [createPaymentUSD, h, hne]
  · simp [mathRound, round_eq]

/-- Witness for C4 at amount 500, rate 1: minor-unit amount 50000. -/
theorem create_payment_minor_units_witness :
    (CreatePaymentRequest.mk (some 500) none none none).amountPHP = some 500 ∧
    (0 : ℚ) < 500 ∧
    ((∃ ci, createPayment ⟨some 500, none, none, none⟩ = .created ci ∧
        ci.amount = round ((500 : ℚ) * 100) ∧ ci.currency = "php") ∧
      (∃ ci, createPaymentUSD 1 ⟨some 500, none, none, none⟩ = .created ci ∧
        ci.amount = round ((500 : ℚ) * 1 * 100) ∧ ci.currency = "usd")) :=
  ⟨rfl, by norm_num,
    create_payment_minor_units ⟨some 500, none, none, none⟩ 500 1 rfl (by norm_num)⟩

/-- C5 counterexample: a request with the non-positive amount -5 is NOT
rejected with 400 — `if (!amountPHP)` only catches falsy values, so a
negative amount passes validation and a payment intent is created. -/
theorem create_payment_negative_not_rejected :
    ((-5 : ℚ) ≤ 0) ∧
    createPayment ⟨some (-5), none, none, none⟩ ≠ .badRequest ∧
    (∃ ci, createPayment ⟨some (-5), none, none, none⟩ = .created ci ∧
      ci.amount = -500) := by
  refine ⟨by norm_num, ?_, ⟨_, rfl, ?_⟩⟩
  · simp [createPayment, mathRound]
  · simp [mathRound]
    norm_num

/-- C5 amended: POST /create-payment fails with 400 (and creates no
intent) exactly when the amount is missing or zero; negative amounts
are not rejected locally. -/
theorem create_payment_bad_request_iff (req : CreatePaymentRequest) :
    createPayment req = .badRequest ↔
      (req.amountPHP = none ∨ req.amountPHP = some 0) := by
  rcases req with ⟨amt, c, k, s⟩
  cases amt with
  | none => simp [createPayment]
  | some a =>
    by_cases h : a = 0 <;> simp [createPayment, h]

/-- C6: For a verified succeeded event whose metadata object is present,
each normalized field equals the metadata value exactly (including when
an individual key is absent, where it is null); when the metadata
object is absent entirely, all three fields are null.  No error path
exists: normalizePayload is total. -/
theorem normalize_metadata_fields (intent : Intent) :
    (∀ m : Metadata, intent.metadata = some m →
      (normalizePayload intent).customer_id = m.customer_id ∧
      (normalizePayload intent).cart_id = m.cart_id ∧
      (normalizePayload intent).shipping_fee = m.shipping_fee) ∧
    (intent.metadata = none →
      (normalizePayload intent).customer_id = none ∧
      (normalizePayload intent).cart_id = none ∧
      (normalizePayload intent).shipping_fee = none) := by
  constructor
  · intro m hm
    simp [normalizePayload, hm]
  · intro hm
    simp [normalizePayload, hm]

/-- Witness for C6: on intentA the fields are carried over exactly; on
intentB (no metadata) the fields are null. -/
theorem normalize_metadata_fields_witness :
    ((normalizePayload intentA).customer_id = some "cust-1" ∧
      (normalizePayload intentA).cart_id = some "cart-9" ∧
      (normalizePayload intentA).shipping_fee = some "150") ∧
    ((normalizePayload intentB).customer_id = none ∧
      (normalizePayload intentB).cart_id = none ∧
      (normalizePayload intentB).shipping_fee = none) :=
  ⟨(normalize_metadata_fields intentA).1 ⟨some "cust-1", some "cart-9", some "150"⟩ rfl,
    (normalize_metadata_fields intentB).2 rfl⟩

/-- C7: every amount crossing the canonical-record boundary — the
amountPHP of any OrderConfirmation produced by the webhook handler, and
of any verify-payment response — equals the processor's integer
minor-unit amount divided by 100, never the raw integer. -/
theorem amount_decimal_at_boundary (env : Env) (w : World)
    (req : WebhookRequest) (a : ℤ) (h : req.intent.amount = some a) :
    (∀ c ∈ (handleWebhook env w req).confirmations,
      c.amountPHP = (a : ℚ) / 100) ∧
    (verifyPayment req.intent).amountPHP = (a : ℚ) / 100 := by
  have hn : (normalizePayload req.intent).amountPHP = (a : ℚ) / 100 := by
    simp [normalizePayload, h]
  constructor
  · intro c hc
    unfold handleWebhook at hc
    split_ifs at hc <;> simp at hc <;> simp [hc, hn]
  · simp [verifyPayment, h]

/-- Witness for C7: intentA carries minor-unit amount 50000; its
normalized and verify-payment amounts are both 500. -/
theorem amount_decimal_at_boundary_witness :
    reqA.intent.amount = some 50000 ∧
    ((∀ c ∈ (handleWebhook ⟨true, false⟩ ⟨true, true, true, true, "t0"⟩ reqA).confirmations,
        c.amountPHP = ((50000 : ℤ) : ℚ) / 100) ∧
      (verifyPayment reqA.intent).amountPHP = ((50000 : ℤ) : ℚ) / 100) :=
  ⟨rfl, amount_decimal_at_boundary ⟨true, false⟩ ⟨true, true, true, true, "t0"⟩ reqA 50000 rfl⟩

/-- C1 counterexample: two valid-signature succeeded-event requests get
HTTP 500.  First, with the DB unconfigured and the fallback file write
failing (part_001 lines 174-177).  Second, with the fallback file write
SUCCEEDING — one entry appended — but ADMIN_EMAIL configured and the
awaited `sendAdminEmail` throwing inside the same try-block (lines
169-171).  Both are non-success responses not caused by signature
verification. -/
theorem webhook_fallback_failure_counterexample :
    reqA.sigValid = true ∧
    (handleWebhook ⟨false, false⟩ ⟨true, true, false, true, "t0"⟩ reqA).status = 500 ∧
    (handleWebhook ⟨false, false⟩ ⟨true, true, false, true, "t0"⟩ reqA).body =
      .persistFailed ∧
    (handleWebhook ⟨false, true⟩ ⟨true, true, true, false, "t0"⟩ reqA).status = 500 ∧
    (handleWebhook ⟨false, true⟩ ⟨true, true, true, false, "t0"⟩
        reqA).fallbackAppended.length = 1 :=
  ⟨rfl, rfl, rfl, rfl, rfl⟩

/-- C1 amended: a webhook request whose signature verifies is answered
200 except when the event is succeeded, the direct DB write path does
not complete (unconfigured or failed), and the fallback try-block
throws — either the fallback file write fails, or it succeeds but
ADMIN_EMAIL is configured and the awaited admin email throws; those
cases are answered 500. -/
theorem webhook_ack_policy (env : Env) (w : World) (req : WebhookRequest)
    (h : req.sigValid = true) :
    (handleWebhook env w req).status = 200 ∨
    ((handleWebhook env w req).status = 500 ∧
      req.eventType = "payment_intent.succeeded" ∧
      (env.dbConfigured && w.dbWriteOk) = false ∧
      (w.fallbackWriteOk = false ∨
        (w.fallbackWriteOk = true ∧
          (env.adminEmailConfigured && !w.adminEmailOk) = true))) := by
  unfold handleWebhook
  split_ifs <;> simp_all

/-- Witness for C1 amended at a concrete valid request. -/
theorem webhook_ack_policy_witness :
    reqA.sigValid = true ∧
    ((handleWebhook ⟨true, false⟩ ⟨true, true, true, true, "t0"⟩ reqA).status = 200 ∨
      ((handleWebhook ⟨true, false⟩ ⟨true, true, true, true, "t0"⟩ reqA).status = 500 ∧
        reqA.eventType = "payment_intent.succeeded" ∧
        ((true : Bool) && true) = false ∧
        ((true : Bool) = false ∨
          ((true : Bool) = true ∧ ((false : Bool) && !(true : Bool)) = true)))) :=
  ⟨rfl, webhook_ack_policy ⟨true, false⟩ ⟨true, true, true, true, "t0"⟩ reqA rfl⟩

/-- C3 counterexample: with the downstream HTTP notify failing
(httpOk = false, e.g. a timeout) but the DB configured and its write
succeeding, the handler appends NO fallback entry and answers plain
`received` — the fallback is not governed by the HTTP notifier's
outcome, whose result part_001 lines 102-116 ignore. -/
theorem webhook_fallback_not_on_http_failure :
    (World.mk false true true true "t0").httpOk = false ∧
    reqA.sigValid = true ∧
    reqA.eventType = "payment_intent.succeeded" ∧
    (handleWebhook ⟨true, false⟩ ⟨false, true, true, true, "t0"⟩ reqA).fallbackAppended = [] ∧
    (handleWebhook ⟨true, false⟩ ⟨false, true, true, true, "t0"⟩ reqA).body = .received :=
  ⟨rfl, rfl, rfl, rfl, rfl⟩

/-- C3 amended: for a verified succeeded event, exactly one fallback
entry is appended iff the direct DB write path does not complete (DB
unconfigured or write failed) AND the fallback file write succeeds —
the HTTP notifier's outcome plays no role.  In that case the response
is 200 with body received+fallback_saved when the admin-email step does
not throw (ADMIN_EMAIL unset, or the send returning), but 500 — with
the entry nevertheless appended — when ADMIN_EMAIL is set and the
awaited send throws.  (When the fallback file write itself fails,
nothing is appended and the response is 500.) -/
theorem webhook_fallback_iff_db_incomplete (env : Env) (w : World)
    (req : WebhookRequest) (h : req.sigValid = true)
    (ht : req.eventType = "payment_intent.succeeded") :
    ((handleWebhook env w req).fallbackAppended.length =
      if (env.dbConfigured && w.dbWriteOk) = false ∧ w.fallbackWriteOk = true
      then 1 else 0) ∧
    ((env.dbConfigured && w.dbWriteOk) = false → w.fallbackWriteOk = true →
      ((env.adminEmailConfigured && !w.adminEmailOk) = false →
        (handleWebhook env w req).status = 200 ∧
        (handleWebhook env w req).body = .receivedFallback fallbackFile) ∧
      ((env.adminEmailConfigured && !w.adminEmailOk) = true →
        (handleWebhook env w req).status = 500 ∧
        (handleWebhook env w req).body = .persistFailed)) := by
  unfold handleWebhook
  split_ifs <;> simp_all

/-- Witness for C3 amended: DB unconfigured, fallback write succeeds,
admin email unconfigured: one entry appended, 200 with fallback_saved. -/
theorem webhook_fallback_iff_db_incomplete_witness :
    reqA.sigValid = true ∧
    reqA.eventType = "payment_intent.succeeded" ∧
    (((handleWebhook ⟨false, false⟩ ⟨true, true, true, true, "t0"⟩
          reqA).fallbackAppended.length =
        if ((false : Bool) && true) = false ∧ (true : Bool) = true then 1 else 0) ∧
      (((false : Bool) && true) = false → (true : Bool) = true →
        ((((false : Bool) && !(true : Bool)) = false →
          (handleWebhook ⟨false, false⟩ ⟨true, true, true, true, "t0"⟩ reqA).status = 200 ∧
          (handleWebhook ⟨false, false⟩ ⟨true, true, true, true, "t0"⟩ reqA).body =
            .receivedFallback fallbackFile) ∧
        (((false : Bool) && !(true : Bool)) = true →
          (handleWebhook ⟨false, false⟩ ⟨true, true, true, true, "t0"⟩ reqA).status = 500 ∧
          (handleWebhook ⟨false, false⟩ ⟨true, true, true, true, "t0"⟩ reqA).body =
            .persistFailed)))) :=
  ⟨rfl, rfl,
    webhook_fallback_iff_db_incomplete ⟨false, false⟩ ⟨true, true, true, true, "t0"⟩
      reqA rfl rfl⟩

/-- C9 counterexample: with the DB env configured, one verified
succeeded webhook attempts BOTH delivery strategies — the HTTP POST to
the confirm-order URL (always, lines 102-116) and the direct DB upsert
(lines 119-156) — contradicting "exactly one of the two". -/
theorem notifier_both_strategies :
    reqA.sigValid = true ∧
    reqA.eventType = "payment_intent.succeeded" ∧
    (handleWebhook ⟨true, false⟩ ⟨true, true, true, true, "t0"⟩ reqA).httpAttempted = true ∧
    (handleWebhook ⟨true, false⟩ ⟨true, true, true, true, "t0"⟩ reqA).dbAttempted = true :=
  ⟨rfl, rfl, rfl, rfl⟩

/-- C9 amended: for every verified succeeded event the handler always
attempts the HTTP POST, and additionally attempts the direct DB upsert
exactly when the DB environment is configured — so both strategies run
whenever the DB is configured. -/
theorem notifier_strategies (env : Env) (w : World) (req : WebhookRequest)
    (h : req.sigValid = true)
    (ht : req.eventType = "payment_intent.succeeded") :
    (handleWebhook env w req).httpAttempted = true ∧
    (handleWebhook env w req).dbAttempted = env.dbConfigured := by
  unfold handleWebhook
  split_ifs <;> simp_all

/-- Updating the rows keyed by a payment-intent id commutes with
selecting them: the update preserves whether a row matches the key. -/
theorem rowsFor_map_update (p : OrderConfirmation) (l : List OrderRow) :
    rowsFor (l.map (fun r =>
        if r.stripe_payment_intent = some p.payment_intent_id
        then updateRow p r else r))
      p.payment_intent_id
      = (rowsFor l p.payment_intent_id).map (updateRow p) := by
  induction l with
  | nil => rfl
  | cons a t ih =>
    by_cases hk : a.stripe_payment_intent = some p.payment_intent_id
    · have hkey : (updateRow p a).stripe_payment_intent = some p.payment_intent_id :=
        rfl
      simp only [List.map_cons, rowsFor, List.filter_cons] at ih ⊢
      simp [hk, hkey, ih]
    · simp only [List.map_cons, rowsFor, List.filter_cons] at ih ⊢
      simp [hk, ih]

/-- If no row holds the key, the upsert takes the INSERT branch. -/
theorem upsertOrder_insert (db : List OrderRow) (p : OrderConfirmation)
    (h : rowsFor db p.payment_intent_id = []) :
    upsertOrder db p = db ++ [newOrderRow p] := by
  have hnone : ∀ r ∈ db, ¬ r.stripe_payment_intent = some p.payment_intent_id := by
    intro r hr
    have := List.filter_eq_nil_iff.mp h r hr
    simpa using this
  unfold upsertOrder
  rw [if_neg]
  simp only [List.any_eq_true, not_exists, not_and]
  intro r hr
  simpa using hnone r hr

/-- C8: delivering the same normalized record twice to the downstream
upsert (same paymentIntentId, initially absent) leaves exactly one
stored order row for that id, in paid status ('Paid' is the literal
the INSERT and UPDATE write), and the second delivery inserts no row. -/
theorem upsert_same_record_twice (db : List OrderRow)
    (p : OrderConfirmation) (h : rowsFor db p.payment_intent_id = []) :
    (rowsFor (upsertOrder (upsertOrder db p) p) p.payment_intent_id).length = 1 ∧
    (∀ r ∈ rowsFor (upsertOrder (upsertOrder db p) p) p.payment_intent_id,
      r.payment_status = "Paid") ∧
    (upsertOrder (upsertOrder db p) p).length = (upsertOrder db p).length := by
  have h1 : upsertOrder db p = db ++ [newOrderRow p] := upsertOrder_insert db p h
  have hmem : (db ++ [newOrderRow p]).any
      (fun r => decide (r.stripe_payment_intent = some p.payment_intent_id)) = true := by
    simp [newOrderRow]
  have h2 : upsertOrder (db ++ [newOrderRow p]) p
      = (db ++ [newOrderRow p]).map (fun r =>
          if r.stripe_payment_intent = some p.payment_intent_id
          then updateRow p r else r) := by
    unfold upsertOrder
    rw [if_pos hmem]
  have hrows1 : rowsFor (db ++ [newOrderRow p]) p.payment_intent_id
      = [newOrderRow p] := by
    simp only [rowsFor, List.filter_append] at h ⊢
    rw [h]
    simp [newOrderRow]
  rw [h1, h2, rowsFor_map_update, hrows1]
  refine ⟨rfl, ?_, by simp⟩
  intro r hr
  simp only [List.map_cons, List.map_nil, List.mem_singleton] at hr
  rw [hr]
  rfl

/-- Witness for C8 at the empty table and a concrete record. -/
theorem upsert_same_record_twice_witness :
    rowsFor ([] : List OrderRow) (normalizePayload intentA).payment_intent_id = [] ∧
    ((rowsFor (upsertOrder (upsertOrder [] (normalizePayload intentA))
          (normalizePayload intentA))
        (normalizePayload intentA).payment_intent_id).length = 1 ∧
      (∀ r ∈ rowsFor (upsertOrder (upsertOrder [] (normalizePayload intentA))
          (normalizePayload intentA))
          (normalizePayload intentA).payment_intent_id,
        r.payment_status = "Paid") ∧
      (upsertOrder (upsertOrder [] (normalizePayload intentA))
          (normalizePayload intentA)).length =
        (upsertOrder [] (normalizePayload intentA)).length) :=
  ⟨rfl, upsert_same_record_twice [] (normalizePayload intentA) rfl⟩

/-- C10: for every create-payment request that omits customer_id,
cart_id, or shipping_fee, the created intent stores the empty string
for that metadata key (`?? ""`), so a later succeeded webhook for that
intent normalizes that field to `some ""` — not null; the normalizer's
null default applies only to keys absent entirely.  Each omitted field
is covered independently. -/
theorem create_omitted_metadata_empty_string (req : CreatePaymentRequest)
    (amt : ℚ) (h : req.amountPHP = some amt) (h0 : ¬ amt = 0) :
    ∃ ci, createPayment req = .created ci ∧
      (req.customer_id = none →
        ci.metadata.customer_id = some "" ∧
        ∀ intent : Intent, intent.metadata = some ci.metadata →
          (normalizePayload intent).customer_id = some "") ∧
      (req.cart_id = none →
        ci.metadata.cart_id = some "" ∧
        ∀ intent : Intent, intent.metadata = some ci.metadata →
          (normalizePayload intent).cart_id = some "") ∧
      (req.shipping_fee = none →
        ci.metadata.shipping_fee = some "" ∧
        ∀ intent : Intent, intent.metadata = some ci.metadata →
          (normalizePayload intent).shipping_fee = some "") := by
  refine ⟨⟨mathRound (amt * 100), "php",
      ⟨some (req.customer_id.getD ""), some (req.cart_id.getD ""),
        some (req.shipping_fee.getD "")⟩⟩, ?_, ?_, ?_, ?_⟩
  · simp [createPayment, h, h0]
  · intro hc
    exact ⟨by simp [hc], fun intent hi => by simp [normalizePayload, hi, hc]⟩
  · intro hk
    exact ⟨by simp [hk], fun intent hi => by simp [normalizePayload, hi, hk]⟩
  · intro hs
    exact ⟨by simp [hs], fun intent hi => by simp [normalizePayload, hi, hs]⟩

/-- Witness for C10 at a concrete request omitting only shipping_fee
(customer_id and cart_id supplied). -/
theorem create_omitted_metadata_empty_string_witness :
    (CreatePaymentRequest.mk (some 500) (some "c1") (some "k1") none).amountPHP =
      some 500 ∧
    ¬ (500 : ℚ) = 0 ∧
    (∃ ci, createPayment ⟨some 500, some "c1", some "k1", none⟩ = .created ci ∧
      ((CreatePaymentRequest.mk (some 500) (some "c1") (some "k1") none).customer_id = none →
        ci.metadata.customer_id = some "" ∧
        ∀ intent : Intent, intent.metadata = some ci.metadata →
          (normalizePayload intent).customer_id = some "") ∧
      ((CreatePaymentRequest.mk (some 500) (some "c1") (some "k1") none).cart_id = none →
        ci.metadata.cart_id = some "" ∧
        ∀ intent : Intent, intent.metadata = some ci.metadata →
          (normalizePayload intent).cart_id = some "") ∧
      ((CreatePaymentRequest.mk (some 500) (some "c1") (some "k1") none).shipping_fee = none →
        ci.metadata.shipping_fee = some "" ∧
        ∀ intent : Intent, intent.metadata = some ci.metadata →
          (normalizePayload intent).shipping_fee = some "")) :=
  ⟨rfl, by norm_num,
    create_omitted_metadata_empty_string ⟨some 500, some "c1", some "k1", none⟩ 500 rfl
      (by norm_num)⟩

/-- Witness for C9 amended at a concrete DB-unconfigured environment. -/
theorem notifier_strategies_witness :
    reqA.sigValid = true ∧
    reqA.eventType = "payment_intent.succeeded" ∧
    ((handleWebhook ⟨false, false⟩ ⟨true, true, true, true, "t0"⟩ reqA).httpAttempted = true ∧
      (handleWebhook ⟨false, false⟩ ⟨true, true, true, true, "t0"⟩ reqA).dbAttempted =
        (Env.mk false false).dbConfigured) :=
  ⟨rfl, rfl, notifier_strategies ⟨false, false⟩ ⟨true, true, true, true, "t0"⟩ reqA rfl rfl⟩

end Revaux
